import Mathlib

/-!
# Verification of the book-catalog API (`app.py`)

A shallow embedding of the authentication / authorization / CRUD core of the
Flask application, together with theorems settling the specification claims.

Modelling conventions:
* JSON scalar values (strings, integers, booleans, null) are modelled by
  `JVal`; request bodies by `JBody` (object / array / scalar).  JSON container
  values *inside* objects and JSON floats are outside the model: containers
  are never integer-coercible (`int()` raises `TypeError`, caught by the same
  handlers that catch bad strings) and can never collide with catalog keys
  (they are unhashable), while floats are always integer-coercible.
* Python dicts are modelled as association lists in insertion order; the
  handlers only build duplicate-free ones, matching dict semantics.
* Python runtime failures that escape a handler (uncaught `AttributeError` /
  `TypeError`, surfacing as HTTP 500) are modelled by `Except PyErr`.
* `werkzeug`'s salted `generate_password_hash` / `check_password_hash` are
  external to the repository and are abstracted as explicit function
  parameters (`hash : String → String`, `check : String → String → Bool`).
* Character classification (`str.isdigit`, `str.isalpha`, whitespace
  stripping) is modelled on its ASCII fragment; no claim involves non-ASCII
  code points.
-/

set_option autoImplicit false

/-- A JSON scalar value, as used for the fields of request payloads. -/
inductive JVal where
  | s (v : String)
  | i (v : Int)
  | b (v : Bool)
  | null
deriving Repr, DecidableEq

/-- A parsed JSON request body: an object, an array, or a bare scalar. -/
inductive JBody where
  | obj (fields : List (String × JVal))
  | arr (elems : List JVal)
  | prim (v : JVal)
deriving Repr, DecidableEq

/-- A Python runtime error escaping a handler (an uncaught 500). -/
inductive PyErr where
  | attributeError
  | typeError
deriving Repr, DecidableEq

deriving instance DecidableEq for Except

/-- Python truthiness of a scalar: `""`, `0`, `False` and `None` are falsy. -/
def falsy : JVal → Bool
  | .s t => t == ""
  | .i n => n == 0
  | .b v => !v
  | .null => true

/-- Python truthiness of a whole JSON body (`[]` and `{}` are falsy). -/
def bodyFalsy : JBody → Bool
  | .obj fields => fields.isEmpty
  | .arr elems => elems.isEmpty
  | .prim v => falsy v

/-- `request.get_json() or {}`: a falsy body is replaced by the empty dict. -/
def getJson (body : JBody) : JBody :=
  if bodyFalsy body then .obj [] else body

/-- Python `==` on the modelled scalars.  `True == 1` and `False == 0`;
values of distinct non-numeric kinds are never equal. -/
def pyEq : JVal → JVal → Bool
  | .s a, .s c => a == c
  | .i a, .i c => a == c
  | .b a, .b c => a == c
  | .i a, .b c => a == (if c then (1 : Int) else 0)
  | .b a, .i c => (if a then (1 : Int) else 0) == c
  | .null, .null => true
  | _, _ => false

/-- Python `x or y` applied to an optional lookup result
(`data.get(k) or default`). -/
def pyOr (v : Option JVal) (dflt : JVal) : JVal :=
  match v with
  | none => dflt
  | some x => if falsy x then dflt else x

/-- The ASCII fragment of Python's whitespace set used by `str.strip()`
and by `int()` on strings. -/
def isPyWs (c : Char) : Bool :=
  c == ' ' || c == '\t' || c == '\n' || c == '\r' || c == '\x0b' || c == '\x0c'

/-- Strip the given predicate from both ends of a character list. -/
def stripBoth (l : List Char) : List Char :=
  (((l.dropWhile isPyWs).reverse.dropWhile isPyWs)).reverse

/-- Python `str.strip()` (ASCII whitespace fragment). -/
def pyStrip (t : String) : String :=
  String.mk (stripBoth t.toList)

/-- Numeric value of an ASCII digit. -/
def digitVal (c : Char) : Nat := c.toNat - 48

/-- Continue parsing a digit run, allowing single `_` separators between
digits, as Python's `int()` does. -/
def parseDigitsAux : List Char → Nat → Option Nat
  | [], acc => some acc
  | c :: rest, acc =>
    if c.isDigit then parseDigitsAux rest (acc * 10 + digitVal c)
    else if c == '_' then
      match rest with
      | [] => none
      | d :: rest2 =>
        if d.isDigit then parseDigitsAux rest2 (acc * 10 + digitVal d) else none
    else none

/-- Parse a nonempty digit run (with `_` separators) to a natural number. -/
def parseDigits : List Char → Option Nat
  | [] => none
  | c :: rest => if c.isDigit then parseDigitsAux rest (digitVal c) else none

/-- Python `int()` applied to a string: surrounding whitespace is ignored,
an optional sign precedes a nonempty digit run; anything else raises
`ValueError` (modelled as `none`). -/
def pyStrToInt (t : String) : Option Int :=
  match stripBoth t.toList with
  | '+' :: rest => (parseDigits rest).map (fun n => (n : Int))
  | '-' :: rest => (parseDigits rest).map (fun n => -(n : Int))
  | l => (parseDigits l).map (fun n => (n : Int))

/-- Python `int(v)` on a scalar: identity on integers, `1`/`0` on booleans,
string parsing on strings; `int(None)` raises `TypeError` (`none`). -/
def toInt : JVal → Option Int
  | .i n => some n
  | .b true => some 1
  | .b false => some 0
  | .s t => pyStrToInt t
  | .null => none

/-- `data.get(k)`: first binding of key `k` in a dict, if any. -/
def dGet (data : List (String × JVal)) (k : String) : Option JVal :=
  (data.find? (fun p => p.1 == k)).map (fun p => p.2)

/-- `data[k]` where the presence of `k` has already been established. -/
def dIndex (data : List (String × JVal)) (k : String) : JVal :=
  (dGet data k).getD .null

/-- `data.pop(k, None)`: remove the binding of key `k`. -/
def dPop (data : List (String × JVal)) (k : String) : List (String × JVal) :=
  data.filter (fun p => !(p.1 == k))

/-- `data[k] = v` on a dict already containing `k`: replace the binding in
place (appending when `k` is absent, which the handlers never do). -/
def dSet : List (String × JVal) → String → JVal → List (String × JVal)
  | [], k, v => [(k, v)]
  | p :: rest, k, v => if p.1 == k then (k, v) :: rest else p :: dSet rest k v

/-- The `Book` dataclass.  Field values are dynamically typed in Python
(`setattr` can store any payload value), so every field holds a `JVal`;
the handlers only ever store `.i` in `year`/`stock` and `.s` in `owner`. -/
structure Book where
  id : JVal
  title : JVal
  author : JVal
  publisher : JVal
  year : JVal
  genre : JVal
  stock : JVal
  owner : JVal
deriving Repr, DecidableEq

/-- The in-memory catalog: book-id → `Book`, in insertion order. -/
abbrev Books := List (JVal × Book)

/-- The credential store: username → password hash. -/
abbrev Users := List (String × String)

/-- `users.get(username)`. -/
def lookupUser (users : Users) (username : String) : Option String :=
  (users.find? (fun p => p.1 == username)).map (fun p => p.2)

/-- `books.get(key)`: dict lookup under Python equality of keys. -/
def booksGet (books : Books) (k : JVal) : Option Book :=
  (books.find? (fun p => pyEq p.1 k)).map (fun p => p.2)

/-- `setattr` mutates the stored `Book` object in place: replace the value
at the first key equal (in the Python sense) to `k`, keeping the stored key. -/
def booksSetAt : Books → JVal → Book → Books
  | [], _, _ => []
  | p :: rest, k, nb => if pyEq p.1 k then (p.1, nb) :: rest else p :: booksSetAt rest k nb

/-- `del books[key]`: drop the binding of `k`. -/
def booksRemove : Books → JVal → Books
  | [], _ => []
  | p :: rest, k => if pyEq p.1 k then rest else p :: booksRemove rest k

/-- The caller-visible responses produced by the handlers (JSON encoding
mechanics are an external collaborator; we keep the structured content). -/
inductive Resp where
  /-- `{"error": msg}` with a status code. -/
  | err (msg : String) (status : Nat)
  /-- `{"detail": msg}` with a status code and a `WWW-Authenticate` challenge. -/
  | detail (msg : String) (status : Nat)
  /-- `{"message": msg}` with a status code. -/
  | message (msg : String) (status : Nat)
  /-- `{"username": u}` with a status code. -/
  | username (u : String) (status : Nat)
  /-- A single serialized book with a status code. -/
  | bookJson (b : Book) (status : Nat)
  /-- `{"message": msg, "book": b}` with a status code. -/
  | msgBook (msg : String) (b : Book) (status : Nat)
  /-- The serialized id → book mapping with a status code. -/
  | bookMap (books : Books) (status : Nat)
deriving Repr, DecidableEq

/-- The credentials of an HTTP Basic `Authorization` header. -/
structure AuthHeader where
  username : String
  password : String
deriving Repr, DecidableEq

/-- `validate_password` (`app.py:126`): at least 8 characters, at least one
digit and at least one letter; returns the error message or `none`. -/
def validate_password (password : String) : Option String :=
  if password.length < 8 then
    some "Password must be at least 8 characters long."
  else
    let has_digit := password.toList.any Char.isDigit
    let has_alpha := password.toList.any Char.isAlpha
    if !(has_digit && has_alpha) then
      some "Password must contain at least one letter and one number."
    else
      none

/-- `require_auth` (`app.py:145`): the decorator guarding every protected
handler.  `check` abstracts `check_password_hash`.  Returns the
authenticated username or the prepared 401 response. -/
def require_auth (check : String → String → Bool) (users : Users)
    (auth : Option AuthHeader) : Except Resp String :=
  match auth with
  | none => .error (.detail "Authentication required" 401)
  | some a =>
    if a.username == "" || a.password == "" then
      .error (.detail "Authentication required" 401)
    else
      match lookupUser users a.username with
      | none => .error (.detail "Invalid username or password" 401)
      | some h =>
        if check h a.password then .ok a.username
        else .error (.detail "Invalid username or password" 401)

/-- `get_book_or_404` (`app.py:196`): fetch a book or the prepared 404. -/
def get_book_or_404 (books : Books) (book_id : String) : Except Resp Book :=
  match booksGet books (.s book_id) with
  | none => .error (.err "Book not found" 404)
  | some book => .ok book

/-- `ensure_owner` (`app.py:206`): the `current_user` argument is
`getattr(g, "current_user", None)`; rejects a missing or falsy identity
with 401 and a non-owner with 403. -/
def ensure_owner (current_user : Option String) (book : Book) : Option Resp :=
  match current_user with
  | none => some (.err "Authentication required" 401)
  | some u =>
    if u == "" then some (.err "Authentication required" 401)
    else if pyEq book.owner (.s u) then none
    else some (.err "Forbidden: not the owner of this resource" 403)

/-- `register` (`app.py:224`).  `hash` abstracts `generate_password_hash`;
the best-effort `save_users` write has no caller-visible effect and is not
modelled.  A non-object truthy body raises `AttributeError` at
`data.get` (`'list' object has no attribute 'get'`), and a truthy
non-string username or password raises at `.strip()` / `len()`. -/
def register (users : Users) (hash : String → String) (body : JBody) :
    Except PyErr (Resp × Users) :=
  match getJson body with
  | .arr _ => .error .attributeError
  | .prim _ => .error .attributeError
  | .obj data =>
    match pyOr (dGet data "username") (.s "") with
    | .s u0 =>
      let username := pyStrip u0
      let passwordJ := pyOr (dGet data "password") (.s "")
      if username == "" || falsy passwordJ then
        .ok (.err "username and password are required" 400, users)
      else if username.length < 3 then
        .ok (.err "username must be at least 3 characters" 400, users)
      else if (lookupUser users username).isSome then
        .ok (.err "username already exists" 400, users)
      else
        match passwordJ with
        | .s password =>
          match validate_password password with
          | some pw_error => .ok (.err pw_error 400, users)
          | none =>
            .ok (.message "User registered successfully" 201,
                 users ++ [(username, hash password)])
        | _ => .error .typeError
    | _ => .error .attributeError

/-- `me` (`app.py:259`). -/
def me (check : String → String → Bool) (users : Users)
    (auth : Option AuthHeader) : Resp :=
  match require_auth check users auth with
  | .error r => r
  | .ok u => .username u 200

/-- `list_books` (`app.py:271`): public, returns the whole catalog. -/
def list_books (books : Books) : Resp :=
  .bookMap books 200

/-- `get_book` (`app.py:280`): public single read. -/
def get_book (books : Books) (book_id : String) : Resp :=
  match get_book_or_404 books book_id with
  | .error r => r
  | .ok book => .bookJson book 200

/-- The required create fields (`app.py:319`). -/
def requiredFields : List String :=
  ["title", "author", "publisher", "year", "genre", "stock"]

/-- `create_book` (`app.py:293`). -/
def create_book (check : String → String → Bool) (users : Users)
    (books : Books) (auth : Option AuthHeader) (body : JBody) :
    Except PyErr (Resp × Books) :=
  match require_auth check users auth with
  | .error r => .ok (r, books)
  | .ok current_user =>
    match getJson body with
    | .arr _ => .error .attributeError
    | .prim _ => .error .attributeError
    | .obj data =>
      match dGet data "id" with
      | none => .ok (.err "Field 'id' is required" 400, books)
      | some book_id =>
        if falsy book_id then
          .ok (.err "Field 'id' is required" 400, books)
        else if (booksGet books book_id).isSome then
          .ok (.err "Book with this id already exists" 400, books)
        else if !(requiredFields.filter (fun f => (dGet data f).isNone)).isEmpty then
          .ok (.err ("Missing fields: " ++ String.intercalate ", "
                 (requiredFields.filter (fun f => (dGet data f).isNone))) 400, books)
        else
          match toInt (dIndex data "year"), toInt (dIndex data "stock") with
          | some year, some stock =>
            .ok (.msgBook "Book created"
                   ⟨book_id, dIndex data "title", dIndex data "author",
                    dIndex data "publisher", .i year, dIndex data "genre",
                    .i stock, .s current_user⟩ 201,
                 books ++ [(book_id,
                   ⟨book_id, dIndex data "title", dIndex data "author",
                    dIndex data "publisher", .i year, dIndex data "genre",
                    .i stock, .s current_user⟩)])
          | _, _ => .ok (.err "year and stock must be integers" 400, books)

/-- The `setattr`-if-`hasattr` step of the update loop (`app.py:378`):
the eight dataclass fields are assignable; any other name either fails
`hasattr` or shadows a method without affecting the dataclass fields, so
it leaves the book unchanged. -/
def setField (b : Book) (k : String) (v : JVal) : Book :=
  if k == "id" then { b with id := v }
  else if k == "title" then { b with title := v }
  else if k == "author" then { b with author := v }
  else if k == "publisher" then { b with publisher := v }
  else if k == "year" then { b with year := v }
  else if k == "genre" then { b with genre := v }
  else if k == "stock" then { b with stock := v }
  else if k == "owner" then { b with owner := v }
  else b

/-- The tail of `update_book` after the `stock` coercion: apply every
surviving payload field with `setattr` and answer 200. -/
def update_apply (books : Books) (book_id : String) (book : Book)
    (data : List (String × JVal)) : Resp × Books :=
  (.msgBook "Book updated" (data.foldl (fun b p => setField b p.1 p.2) book) 200,
   booksSetAt books (.s book_id) (data.foldl (fun b p => setField b p.1 p.2) book))

/-- The `stock` validation step of `update_book` (`app.py:372`). -/
def update_stock (books : Books) (book_id : String) (book : Book)
    (data : List (String × JVal)) : Resp × Books :=
  match dGet data "stock" with
  | none => update_apply books book_id book data
  | some sv =>
    match toInt sv with
    | none => (.err "stock must be an integer" 400, books)
    | some s => update_apply books book_id book (dSet data "stock" (.i s))

/-- `update_book` (`app.py:345`).  A truthy non-object body raises at
`data.pop` (`TypeError` for a list, `AttributeError` for a scalar) —
but only after the ownership check has passed. -/
def update_book (check : String → String → Bool) (users : Users)
    (books : Books) (auth : Option AuthHeader) (book_id : String)
    (body : JBody) : Except PyErr (Resp × Books) :=
  match require_auth check users auth with
  | .error r => .ok (r, books)
  | .ok current_user =>
    match get_book_or_404 books book_id with
    | .error r => .ok (r, books)
    | .ok book =>
      match ensure_owner (some current_user) book with
      | some r => .ok (r, books)
      | none =>
        match getJson body with
        | .arr _ => .error .typeError
        | .prim _ => .error .attributeError
        | .obj data0 =>
          match dGet (dPop (dPop data0 "owner") "id") "year" with
          | none => .ok (update_stock books book_id book (dPop (dPop data0 "owner") "id"))
          | some yv =>
            match toInt yv with
            | none => .ok (.err "year must be an integer" 400, books)
            | some y =>
              .ok (update_stock books book_id book
                    (dSet (dPop (dPop data0 "owner") "id") "year" (.i y)))

/-- `delete_book` (`app.py:385`). -/
def delete_book (check : String → String → Bool) (users : Users)
    (books : Books) (auth : Option AuthHeader) (book_id : String) :
    Resp × Books :=
  match require_auth check users auth with
  | .error r => (r, books)
  | .ok current_user =>
    match get_book_or_404 books book_id with
    | .error r => (r, books)
    | .ok book =>
      match ensure_owner (some current_user) book with
      | some r => (r, books)
      | none => (.message "Book deleted" 200, booksRemove books (.s book_id))

/-- The three seed books of the in-memory catalog (`app.py:33`). -/
def initialBooks : Books :=
  [(.s "BK001",
    ⟨.s "BK001", .s "Designing Your Life", .s "Bill Burnett", .s "Knopf",
     .i 2016, .s "Self-help", .i 5, .s "admin"⟩),
   (.s "BK002",
    ⟨.s "BK002", .s "Atomic Habits", .s "James Clear", .s "Avery",
     .i 2018, .s "Self-help", .i 8, .s "admin"⟩),
   (.s "BK003",
    ⟨.s "BK003", .s "Mindset: The New Psychology of Success", .s "Carol S. Dweck",
     .s "Random House", .i 2006, .s "Psychology", .i 4, .s "admin"⟩)]

/-- The catalog state an operation leaves behind (old state on a crash). -/
def booksAfterCreate (check : String → String → Bool) (users : Users)
    (books : Books) (auth : Option AuthHeader) (body : JBody) : Books :=
  match create_book check users books auth body with
  | .ok r => r.2
  | .error _ => books

/-- The catalog state `update_book` leaves behind (old state on a crash). -/
def booksAfterUpdate (check : String → String → Bool) (users : Users)
    (books : Books) (auth : Option AuthHeader) (book_id : String)
    (body : JBody) : Books :=
  match update_book check users books auth book_id body with
  | .ok r => r.2
  | .error _ => books

/-- No two catalog keys are equal in the Python sense: the dict invariant. -/
def UniqueKeys (books : Books) : Prop :=
  List.Pairwise (fun a c => pyEq a c = false) (books.map Prod.fst)

/-- A concrete password-hash checker for witnesses (hash = password). -/
def chkW : String → String → Bool := fun h p => h == p

/-- A concrete credential store for witnesses. -/
def usersW : Users := [("admin", "admin123"), ("alice", "alicepw")]

/-- Concrete admin credentials for witnesses. -/
def authAdmin : Option AuthHeader := some ⟨"admin", "admin123"⟩

/-- Concrete non-owner credentials for witnesses. -/
def authAlice : Option AuthHeader := some ⟨"alice", "alicepw"⟩

theorem pyEq_refl (a : JVal) : pyEq a a = true := by
  cases a <;> simp [pyEq]

theorem jval_shape (v : JVal) :
    (∃ t, v = .s t) ∨ (∃ n, v = .i n) ∨ v = .b true ∨ v = .b false ∨ v = .null := by
  cases v with
  | s t => exact Or.inl ⟨t, rfl⟩
  | i n => exact Or.inr (Or.inl ⟨n, rfl⟩)
  | b x => cases x
           · exact Or.inr (Or.inr (Or.inr (Or.inl rfl)))
           · exact Or.inr (Or.inr (Or.inl rfl))
  | null => exact Or.inr (Or.inr (Or.inr (Or.inr rfl)))

theorem pyEq_symm (a c : JVal) : pyEq a c = pyEq c a := by
  cases a <;> cases c <;> simp [pyEq] <;> exact eq_comm

theorem pyEq_trans {a c d : JVal} (h1 : pyEq a c = true) (h2 : pyEq c d = true) :
    pyEq a d = true := by
  rcases jval_shape a with ⟨t1, rfl⟩ | ⟨n1, rfl⟩ | rfl | rfl | rfl <;>
  rcases jval_shape c with ⟨t2, rfl⟩ | ⟨n2, rfl⟩ | rfl | rfl | rfl <;>
  rcases jval_shape d with ⟨t3, rfl⟩ | ⟨n3, rfl⟩ | rfl | rfl | rfl <;>
  simp_all [pyEq]

theorem pyEq_s_right {k : JVal} {t : String} (h : pyEq k (.s t) = true) :
    k = .s t := by
  cases k <;> simp_all [pyEq]

theorem booksGet_cons (p : JVal × Book) (bs : Books) (k : JVal) :
    booksGet (p :: bs) k = if pyEq p.1 k then some p.2 else booksGet bs k := by
  simp only [booksGet, List.find?]
  cases h : pyEq p.1 k <;> simp [h]

theorem booksGet_mem_s {bs : Books} {t : String} {b : Book}
    (h : booksGet bs (.s t) = some b) : (JVal.s t, b) ∈ bs := by
  unfold booksGet at h
  cases hf : bs.find? (fun p => pyEq p.1 (.s t)) with
  | none => rw [hf] at h; simp at h
  | some p =>
    rw [hf] at h
    simp at h
    have hp := List.find?_some hf
    simp at hp
    have hm := List.mem_of_find?_eq_some hf
    have h1 : p.1 = .s t := pyEq_s_right hp
    cases p with
    | mk k v => simp_all

theorem booksGet_append_none {bs : Books} {k : JVal} (l : Books)
    (h : booksGet bs k = none) : booksGet (bs ++ l) k = booksGet l k := by
  induction bs with
  | nil => rfl
  | cons p rest ih =>
    rw [booksGet_cons] at h
    rw [List.cons_append, booksGet_cons]
    cases hp : pyEq p.1 k with
    | true => rw [hp] at h; simp at h
    | false =>
      rw [hp] at h
      simp only [Bool.false_eq_true, if_false] at h ⊢
      exact ih h

theorem booksGet_fresh_append {bs : Books} {k : JVal} (nb : Book)
    (h : booksGet bs k = none) : booksGet (bs ++ [(k, nb)]) k = some nb := by
  rw [booksGet_append_none _ h, booksGet_cons, pyEq_refl]
  rfl

theorem dGet_cons (p : String × JVal) (data : List (String × JVal)) (k : String) :
    dGet (p :: data) k = if p.1 == k then some p.2 else dGet data k := by
  simp only [dGet, List.find?]
  cases h : p.1 == k <;> simp [h]

theorem dPop_cons (p : String × JVal) (data : List (String × JVal)) (k : String) :
    dPop (p :: data) k = if p.1 == k then dPop data k else p :: dPop data k := by
  simp only [dPop, List.filter]
  cases h : p.1 == k <;> simp [h]

theorem dGet_dPop_ne {k k2 : String} (data : List (String × JVal)) (h : k ≠ k2) :
    dGet (dPop data k2) k = dGet data k := by
  induction data with
  | nil => rfl
  | cons p rest ih =>
    rw [dPop_cons]
    cases hp : p.1 == k2 with
    | true =>
      have hpk : (p.1 == k) = false := by
        rw [eq_of_beq hp]
        exact beq_eq_false_iff_ne.mpr (fun hc => h hc.symm)
      simp [hp, dGet_cons, hpk, ih]
    | false =>
      simp [dGet_cons, ih]

theorem dGet_dSet_ne {k k2 : String} (data : List (String × JVal)) (v : JVal)
    (h : k ≠ k2) : dGet (dSet data k2 v) k = dGet data k := by
  induction data with
  | nil =>
    show dGet [(k2, v)] k = dGet [] k
    have h1 : (k2 == k) = false := beq_eq_false_iff_ne.mpr (fun hc => h hc.symm)
    rw [dGet_cons]
    simp [h1]
  | cons p rest ih =>
    simp only [dSet]
    cases hp : p.1 == k2 with
    | true =>
      rw [if_pos rfl, dGet_cons, dGet_cons]
      have h1 : (k2 == k) = false := beq_eq_false_iff_ne.mpr (fun hc => h hc.symm)
      have h2 : (p.1 == k) = false := by
        rw [eq_of_beq hp]; exact h1
      simp only [h1, h2]
      simp
    | false =>
      rw [if_neg (by simp), dGet_cons, dGet_cons]
      cases hq : p.1 == k <;> simp [hq, ih]

theorem mem_dPop {data : List (String × JVal)} {k : String} {p : String × JVal}
    (h : p ∈ dPop data k) : p ∈ data ∧ p.1 ≠ k := by
  unfold dPop at h
  have := List.mem_filter.mp h
  refine ⟨this.1, ?_⟩
  have h2 := this.2
  simp at h2
  exact h2

theorem mem_dSet {data : List (String × JVal)} {k : String} {v : JVal}
    {p : String × JVal} (h : p ∈ dSet data k v) : p ∈ data ∨ p.1 = k := by
  induction data with
  | nil =>
    simp [dSet] at h
    subst h
    exact Or.inr rfl
  | cons q rest ih =>
    simp only [dSet] at h
    by_cases hq : (q.1 == k) = true
    · rw [if_pos hq] at h
      rcases List.mem_cons.mp h with h1 | h1
      · subst h1; exact Or.inr rfl
      · exact Or.inl (List.mem_cons_of_mem _ h1)
    · rw [if_neg hq] at h
      rcases List.mem_cons.mp h with h1 | h1
      · subst h1; exact Or.inl (List.mem_cons_self _ _)
      · rcases ih h1 with h2 | h2
        · exact Or.inl (List.mem_cons_of_mem _ h2)
        · exact Or.inr h2

theorem setField_id {k : String} (b : Book) (v : JVal) (h : k ≠ "id") :
    (setField b k v).id = b.id := by
  have h1 : (k == "id") = false := beq_eq_false_iff_ne.mpr h
  unfold setField
  rw [h1]
  simp only [Bool.false_eq_true, if_false]
  repeat' split
  all_goals rfl

theorem setField_owner {k : String} (b : Book) (v : JVal) (h : k ≠ "owner") :
    (setField b k v).owner = b.owner := by
  have h1 : (k == "owner") = false := beq_eq_false_iff_ne.mpr h
  unfold setField
  rw [h1]
  simp only [Bool.false_eq_true, if_false]
  repeat' split
  all_goals rfl

theorem foldl_setField_keep (d : List (String × JVal)) (b : Book)
    (h : ∀ p ∈ d, p.1 ≠ "id" ∧ p.1 ≠ "owner") :
    (d.foldl (fun bk p => setField bk p.1 p.2) b).id = b.id ∧
    (d.foldl (fun bk p => setField bk p.1 p.2) b).owner = b.owner := by
  induction d generalizing b with
  | nil => exact ⟨rfl, rfl⟩
  | cons p rest ih =>
    have hp := h p (List.mem_cons_self _ _)
    have hrest : ∀ q ∈ rest, q.1 ≠ "id" ∧ q.1 ≠ "owner" :=
      fun q hq => h q (List.mem_cons_of_mem _ hq)
    rw [List.foldl_cons]
    have := ih (setField b p.1 p.2) hrest
    rw [this.1, this.2]
    exact ⟨setField_id b p.2 hp.1, setField_owner b p.2 hp.2⟩

theorem require_auth_ok {check : String → String → Bool} {users : Users}
    {auth : Option AuthHeader} {u : String}
    (h : require_auth check users auth = .ok u) :
    u ≠ "" ∧ ∃ a, auth = some a ∧ a.username = u := by
  unfold require_auth at h
  split at h
  · exact absurd h (by simp)
  next a =>
    split at h
    · exact absurd h (by simp)
    next hcond =>
      split at h
      · exact absurd h (by simp)
      next hh hl =>
        split at h
        next =>
          injection h with hui
          subst hui
          refine ⟨?_, a, rfl, rfl⟩
          intro hc
          apply hcond
          simp [hc]
        next => exact absurd h (by simp)

theorem booksSetAt_keys (bs : Books) (k : JVal) (nb : Book) :
    (booksSetAt bs k nb).map Prod.fst = bs.map Prod.fst := by
  induction bs with
  | nil => rfl
  | cons p rest ih =>
    unfold booksSetAt
    cases h : pyEq p.1 k <;> simp [ih]

theorem booksRemove_sublist (bs : Books) (k : JVal) :
    List.Sublist (booksRemove bs k) bs := by
  induction bs with
  | nil => exact List.Sublist.refl []
  | cons p rest ih =>
    unfold booksRemove
    cases h : pyEq p.1 k with
    | true => simp
    | false => simpa using ih.cons₂ p

theorem uniqueKeys_setAt {bs : Books} (k : JVal) (nb : Book)
    (h : UniqueKeys bs) : UniqueKeys (booksSetAt bs k nb) := by
  unfold UniqueKeys
  rw [booksSetAt_keys]
  exact h

theorem uniqueKeys_remove {bs : Books} (k : JVal) (h : UniqueKeys bs) :
    UniqueKeys (booksRemove bs k) := by
  exact h.sublist ((booksRemove_sublist bs k).map Prod.fst)

theorem uniqueKeys_append_fresh {bs : Books} {k : JVal} (nb : Book)
    (h : UniqueKeys bs) (hf : booksGet bs k = none) :
    UniqueKeys (bs ++ [(k, nb)]) := by
  unfold UniqueKeys
  rw [List.map_append, List.pairwise_append]
  refine ⟨h, by simp, ?_⟩
  intro a ha c hc
  simp at hc
  rw [hc]
  unfold booksGet at hf
  have hf2 : bs.find? (fun p => pyEq p.1 k) = none := by
    cases hq : bs.find? (fun p => pyEq p.1 k) with
    | none => rfl
    | some q => rw [hq] at hf; simp at hf
  have hall := List.find?_eq_none.mp hf2
  rcases List.mem_map.mp ha with ⟨p, hpmem, hpk⟩
  have := hall p hpmem
  simp at this
  rw [← hpk]
  simpa using this

theorem booksGet_remove_self {bs : Books} (k : JVal) (h : UniqueKeys bs) :
    booksGet (booksRemove bs k) k = none := by
  induction bs with
  | nil => rfl
  | cons p rest ih =>
    unfold UniqueKeys at h
    rw [List.map_cons, List.pairwise_cons] at h
    obtain ⟨hhead, htail⟩ := h
    unfold booksRemove
    cases hp : pyEq p.1 k with
    | true =>
      simp only [if_true]
      unfold booksGet
      rw [List.find?_eq_none.mpr]
      · rfl
      · intro q hq
        simp only [Bool.not_eq_true]
        by_contra hc
        simp at hc
        have h1 : pyEq k q.1 = true := by rw [pyEq_symm]; exact hc
        have h2 : pyEq p.1 q.1 = true := pyEq_trans hp h1
        have h3 := hhead q.1 (List.mem_map.mpr ⟨q, hq, rfl⟩)
        rw [h2] at h3
        exact Bool.true_eq_false.mp h3
    | false =>
      simp only [Bool.false_eq_true, if_false]
      rw [booksGet_cons, hp]
      simp only [Bool.false_eq_true, if_false]
      exact ih htail

theorem head_dropWhile_not {α : Type} {p : α → Bool} {l : List α} {c : α}
    (h : (l.dropWhile p).head? = some c) : p c = false := by
  induction l with
  | nil => simp [List.dropWhile] at h
  | cons a t ih =>
    rw [List.dropWhile_cons] at h
    by_cases hp : p a = true
    · rw [if_pos hp] at h
      exact ih h
    · rw [if_neg hp] at h
      simp at h
      rw [← h]
      exact Bool.not_eq_true _ |>.mp hp

theorem dropWhile_eq_self_of_head {α : Type} {p : α → Bool} {l : List α}
    (h : ∀ c, l.head? = some c → p c = false) : l.dropWhile p = l := by
  cases l with
  | nil => rfl
  | cons a t =>
    rw [List.dropWhile_cons, if_neg]
    rw [h a rfl]
    simp

theorem stripBoth_idem (l : List Char) : stripBoth (stripBoth l) = stripBoth l := by
  unfold stripBoth
  have h1 : ((((l.dropWhile isPyWs).reverse.dropWhile isPyWs)).reverse).dropWhile isPyWs
      = (((l.dropWhile isPyWs).reverse.dropWhile isPyWs)).reverse := by
    apply dropWhile_eq_self_of_head
    intro c hc
    rw [List.head?_reverse] at hc
    have hbne : ((l.dropWhile isPyWs).reverse.dropWhile isPyWs) ≠ [] := by
      intro hnil
      rw [hnil] at hc
      simp at hc
    obtain ⟨t, ht⟩ := List.dropWhile_suffix (l := (l.dropWhile isPyWs).reverse) isPyWs
    have h2 : ((l.dropWhile isPyWs).reverse).getLast?
        = ((l.dropWhile isPyWs).reverse.dropWhile isPyWs).getLast? := by
      conv_lhs => rw [← ht]
      exact List.getLast?_append_of_ne_nil t hbne
    have h3 := List.head?_reverse (l.dropWhile isPyWs).reverse
    rw [List.reverse_reverse] at h3
    have h4 : (l.dropWhile isPyWs).head? = some c := by
      rw [h3, h2, hc]
    exact head_dropWhile_not h4
  rw [h1, List.reverse_reverse, List.dropWhile_idempotent]

theorem pyStrip_idem (t : String) : pyStrip (pyStrip t) = pyStrip t := by
  unfold pyStrip
  have : (String.mk (stripBoth t.toList)).toList = stripBoth t.toList := rfl
  rw [this, stripBoth_idem]

theorem stripBoth_all_ws {l : List Char} (h : l.all isPyWs = true) :
    stripBoth l = [] := by
  unfold stripBoth
  have h1 : l.dropWhile isPyWs = [] := by
    rw [List.dropWhile_eq_nil_iff]
    intro x hx
    exact List.all_eq_true.mp h x hx
  rw [h1]
  rfl

theorem pyStrip_ws {t : String} (h : t.toList.all isPyWs = true) : pyStrip t = "" := by
  unfold pyStrip
  rw [stripBoth_all_ws h]

/-- The first seed book (`BK001`), used by concrete witnesses. -/
def bk1W : Book :=
  ⟨.s "BK001", .s "Designing Your Life", .s "Bill Burnett", .s "Knopf",
   .i 2016, .s "Self-help", .i 5, .s "admin"⟩

/-- C1: for every book `b` in the catalog and every authenticated identity
`u` with `u ≠ b.owner`, update and delete on `b`'s id return the Forbidden
response and leave the catalog (including `b`) unchanged, while the single
read and the list return `b`'s content without consulting any credentials. -/
theorem c1_owner_guard (check : String → String → Bool) (users : Users)
    (books : Books) (auth : Option AuthHeader) (u book_id : String) (b : Book)
    (body : JBody)
    (hA : require_auth check users auth = .ok u)
    (hB : booksGet books (.s book_id) = some b)
    (hO : pyEq b.owner (.s u) = false) :
    update_book check users books auth book_id body
      = .ok (.err "Forbidden: not the owner of this resource" 403, books) ∧
    delete_book check users books auth book_id
      = (.err "Forbidden: not the owner of this resource" 403, books) ∧
    get_book books book_id = .bookJson b 200 ∧
    list_books books = .bookMap books 200 ∧
    (JVal.s book_id, b) ∈ books := by
  have hu : u ≠ "" := (require_auth_ok hA).1
  have hmem := booksGet_mem_s hB
  have howner : ensure_owner (some u) b
      = some (.err "Forbidden: not the owner of this resource" 403) := by
    unfold ensure_owner
    simp [beq_eq_false_iff_ne.mpr hu, hO]
  refine ⟨?_, ?_, ?_, rfl, hmem⟩
  · simp only [update_book, hA, get_book_or_404, hB, howner]
  · simp only [delete_book, hA, get_book_or_404, hB, howner]
  · simp only [get_book, get_book_or_404, hB]

/-- C1 witness: alice (authenticated, not the owner) is refused the update
and the delete of admin's `BK001`, which stays readable and listed. -/
theorem c1_owner_guard_witness :
    update_book chkW usersW initialBooks authAlice "BK001" (.obj [("title", .s "X")])
      = .ok (.err "Forbidden: not the owner of this resource" 403, initialBooks) ∧
    delete_book chkW usersW initialBooks authAlice "BK001"
      = (.err "Forbidden: not the owner of this resource" 403, initialBooks) ∧
    get_book initialBooks "BK001" = .bookJson bk1W 200 ∧
    list_books initialBooks = .bookMap initialBooks 200 ∧
    (JVal.s "BK001", bk1W) ∈ initialBooks :=
  c1_owner_guard chkW usersW initialBooks authAlice "alice" "BK001" bk1W
    (.obj [("title", .s "X")]) (by decide) (by decide) (by decide)

/-- C2 counterexample: the empty string is a username absent from the store,
yet probing it yields the missing-credentials message while a wrong password
for the known user `admin` yields the invalid-credentials message — two
distinguishable rejections, falsifying the claim as stated. -/
theorem c2_counterexample :
    lookupUser usersW "" = none ∧
    lookupUser usersW "admin" = some "admin123" ∧
    chkW "admin123" "x" = false ∧
    require_auth chkW usersW (some ⟨"", "x"⟩)
      = .error (.detail "Authentication required" 401) ∧
    require_auth chkW usersW (some ⟨"admin", "x"⟩)
      = .error (.detail "Invalid username or password" 401) ∧
    require_auth chkW usersW (some ⟨"", "x"⟩)
      ≠ require_auth chkW usersW (some ⟨"admin", "x"⟩) := by
  refine ⟨rfl, rfl, rfl, by decide, by decide, by decide⟩

/-- C2 (amended): restricted to nonempty presented usernames and passwords
(empty ones short-circuit into the missing-credentials rejection before the
store is consulted), the rejection for an unknown username and the rejection
for a wrong password of a known username are the identical response: the
same error shape, status 401, and message. -/
theorem c2_indistinguishable_rejections (check : String → String → Bool)
    (users : Users) (u1 u2 p1 p2 hsh : String)
    (hu1 : u1 ≠ "") (hu2 : u2 ≠ "") (hp1 : p1 ≠ "") (hp2 : p2 ≠ "")
    (habsent : lookupUser users u1 = none)
    (hknown : lookupUser users u2 = some hsh)
    (hwrong : check hsh p2 = false) :
    require_auth check users (some ⟨u1, p1⟩)
      = .error (.detail "Invalid username or password" 401) ∧
    require_auth check users (some ⟨u2, p2⟩)
      = .error (.detail "Invalid username or password" 401) := by
  constructor
  · have hcond : (u1 == "" || p1 == "") = false := by
      simp [hu1, hp1]
    simp only [require_auth, hcond, Bool.false_eq_true, if_false, habsent]
  · have hcond : (u2 == "" || p2 == "") = false := by
      simp [hu2, hp2]
    simp only [require_auth, hcond, Bool.false_eq_true, if_false, hknown, hwrong]

/-- C2 witness: with a concrete store, probing the unknown `nobody` and
probing `admin` with a wrong password produce the same rejection. -/
theorem c2_indistinguishable_rejections_witness :
    require_auth chkW usersW (some ⟨"nobody", "x"⟩)
      = .error (.detail "Invalid username or password" 401) ∧
    require_auth chkW usersW (some ⟨"admin", "x"⟩)
      = .error (.detail "Invalid username or password" 401) :=
  c2_indistinguishable_rejections chkW usersW "nobody" "admin" "x" "x" "admin123"
    (by decide) (by decide) (by decide) (by decide) (by decide) (by decide)
    (by decide)

/-- C7: `validate_password` returns an error-reason exactly when the
password is shorter than 8 characters, has no alphabetic character, or has
no digit; `"short1"` and `"alllettersnodigit"` are rejected while
`"alllower1"` and `"GOOD1234"` are accepted. -/
theorem c7_validate_password (p : String) :
    ((validate_password p).isSome ↔
      (p.length < 8 ∨ p.toList.any Char.isAlpha = false ∨
       p.toList.any Char.isDigit = false)) ∧
    validate_password "short1"
      = some "Password must be at least 8 characters long." ∧
    validate_password "alllettersnodigit"
      = some "Password must contain at least one letter and one number." ∧
    validate_password "alllower1" = none ∧
    validate_password "GOOD1234" = none := by
  refine ⟨?_, by decide, by decide, by decide, by decide⟩
  unfold validate_password
  by_cases h1 : p.length < 8
  · simp [h1]
  · rw [if_neg h1]
    simp only []
    cases hd : p.toList.any Char.isDigit <;>
      cases ha : p.toList.any Char.isAlpha <;>
        simp [h1, hd, ha]

/-- C9 (code bug): a request body that is a nonempty JSON array passes
`request.get_json() or {}` unchanged, and the subsequent `data.get` /
`data.pop` calls raise uncaught `AttributeError` / `TypeError` (an HTTP
500), contradicting the propagation policy that no error escapes a
handler. -/
theorem c9_uncaught_error_on_array_body :
    register usersW (fun s => s) (.arr [.s "x"]) = .error .attributeError ∧
    create_book chkW usersW initialBooks authAdmin (.arr [.s "x"])
      = .error .attributeError ∧
    update_book chkW usersW initialBooks authAdmin "BK001" (.arr [.s "x"])
      = .error .typeError := by
  refine ⟨by decide, by decide, by decide⟩

theorem require_auth_error_detail {check : String → String → Bool}
    {users : Users} {auth : Option AuthHeader} {r : Resp}
    (h : require_auth check users auth = .error r) : ∃ m, r = .detail m 401 := by
  unfold require_auth at h
  split at h
  · exact ⟨"Authentication required", by injection h with h2; rw [← h2]⟩
  · split at h
    · exact ⟨"Authentication required", by injection h with h2; rw [← h2]⟩
    · split at h
      · exact ⟨"Invalid username or password", by injection h with h2; rw [← h2]⟩
      · split at h
        · exact absurd h (by simp)
        · exact ⟨"Invalid username or password", by injection h with h2; rw [← h2]⟩

theorem get_book_or_404_error {books : Books} {book_id : String} {r : Resp}
    (h : get_book_or_404 books book_id = .error r) :
    r = .err "Book not found" 404 ∧ booksGet books (.s book_id) = none := by
  unfold get_book_or_404 at h
  split at h
  next heq =>
    refine ⟨?_, heq⟩
    injection h with h2
    rw [← h2]
  next => exact absurd h (by simp)

theorem get_book_or_404_ok {books : Books} {book_id : String} {bk : Book}
    (h : get_book_or_404 books book_id = .ok bk) :
    booksGet books (.s book_id) = some bk := by
  unfold get_book_or_404 at h
  split at h
  next => exact absurd h (by simp)
  next b2 heq =>
    injection h with h2
    rw [← h2]
    exact heq

theorem ensure_owner_some {cu : Option String} {b : Book} {r : Resp}
    (h : ensure_owner cu b = some r) :
    r = .err "Authentication required" 401 ∨
    r = .err "Forbidden: not the owner of this resource" 403 := by
  unfold ensure_owner at h
  split at h
  · exact Or.inl (by injection h with h2; rw [← h2])
  · split at h
    · exact Or.inl (by injection h with h2; rw [← h2])
    · split at h
      · exact absurd h (by simp)
      · exact Or.inr (by injection h with h2; rw [← h2])

/-- No binding of `dPop (dPop d "owner") "id"` is named `id` or `owner`. -/
theorem noIdOwner_pops (d : List (String × JVal)) :
    ∀ p ∈ dPop (dPop d "owner") "id", p.1 ≠ "id" ∧ p.1 ≠ "owner" := by
  intro p hp
  have h1 := mem_dPop hp
  have h2 := mem_dPop h1.1
  exact ⟨h1.2, h2.2⟩

theorem noIdOwner_dSet {d : List (String × JVal)} {k : String} (v : JVal)
    (hk1 : k ≠ "id") (hk2 : k ≠ "owner")
    (h : ∀ p ∈ d, p.1 ≠ "id" ∧ p.1 ≠ "owner") :
    ∀ p ∈ dSet d k v, p.1 ≠ "id" ∧ p.1 ≠ "owner" := by
  intro p hp
  rcases mem_dSet hp with h1 | h1
  · exact h p h1
  · rw [h1]
    exact ⟨hk1, hk2⟩

/-- Any successful `update_book` applies some dict without `id`/`owner`
bindings over the stored book and writes the result back in place. -/
theorem update_book_success_inv {check : String → String → Bool}
    {users : Users} {books : Books} {auth : Option AuthHeader}
    {book_id : String} {body : JBody} {msg : String} {nb : Book} {st : Nat}
    {books' : Books}
    (h : update_book check users books auth book_id body
          = .ok (.msgBook msg nb st, books')) :
    ∃ (book : Book) (d3 : List (String × JVal)),
      booksGet books (.s book_id) = some book ∧
      (∀ p ∈ d3, p.1 ≠ "id" ∧ p.1 ≠ "owner") ∧
      nb = d3.foldl (fun bk p => setField bk p.1 p.2) book ∧
      books' = booksSetAt books (.s book_id) nb := by
  unfold update_book at h
  split at h
  next r heq =>
    obtain ⟨m, rfl⟩ := require_auth_error_detail heq
    exact absurd h (by simp)
  next u heq =>
    split at h
    next r heq2 =>
      obtain ⟨h3, h4⟩ := get_book_or_404_error heq2
      rw [h3] at h
      exact absurd h (by simp)
    next book heq2 =>
      have hbook := get_book_or_404_ok heq2
      split at h
      next r heq3 =>
        rcases ensure_owner_some heq3 with h3 | h3 <;> rw [h3] at h <;>
          exact absurd h (by simp)
      next heq3 =>
        split at h
        · exact absurd h (by simp)
        · exact absurd h (by simp)
        next data0 heq4 =>
          split at h
          next hy =>
            unfold update_stock at h
            split at h
            next hs =>
              unfold update_apply at h
              simp only [Except.ok.injEq, Prod.mk.injEq, Resp.msgBook.injEq] at h
              refine ⟨book, dPop (dPop data0 "owner") "id", hbook,
                      noIdOwner_pops data0, h.1.2.1.symm, ?_⟩
              rw [← h.2, h.1.2.1]
            next sv hs =>
              split at h
              · exact absurd h (by simp)
              next s hsi =>
                unfold update_apply at h
                simp only [Except.ok.injEq, Prod.mk.injEq, Resp.msgBook.injEq] at h
                refine ⟨book, dSet (dPop (dPop data0 "owner") "id") "stock" (.i s),
                        hbook,
                        noIdOwner_dSet _ (by decide) (by decide) (noIdOwner_pops data0),
                        h.1.2.1.symm, ?_⟩
                rw [← h.2, h.1.2.1]
          next yv hy =>
            split at h
            · exact absurd h (by simp)
            next y hyi =>
              unfold update_stock at h
              split at h
              next hs =>
                unfold update_apply at h
                simp only [Except.ok.injEq, Prod.mk.injEq, Resp.msgBook.injEq] at h
                refine ⟨book, dSet (dPop (dPop data0 "owner") "id") "year" (.i y),
                        hbook,
                        noIdOwner_dSet _ (by decide) (by decide) (noIdOwner_pops data0),
                        h.1.2.1.symm, ?_⟩
                rw [← h.2, h.1.2.1]
              next sv hs =>
                split at h
                · exact absurd h (by simp)
                next s hsi =>
                  unfold update_apply at h
                  simp only [Except.ok.injEq, Prod.mk.injEq, Resp.msgBook.injEq] at h
                  refine ⟨book,
                          dSet (dSet (dPop (dPop data0 "owner") "id") "year" (.i y))
                            "stock" (.i s),
                          hbook,
                          noIdOwner_dSet _ (by decide) (by decide)
                            (noIdOwner_dSet _ (by decide) (by decide)
                              (noIdOwner_pops data0)),
                          h.1.2.1.symm, ?_⟩
                  rw [← h.2, h.1.2.1]

/-- C3: when the update payload carries a `year` or `stock` field that is
not integer-coercible, `update_book` (for the authenticated owner) answers
with the corresponding validation error and the catalog — hence every field
of the target book — is left exactly as it was: validation of both numeric
fields runs before any field is applied. -/
theorem c3_update_all_or_nothing (check : String → String → Bool)
    (users : Users) (books : Books) (auth : Option AuthHeader)
    (u book_id : String) (b : Book) (data : List (String × JVal))
    (hA : require_auth check users auth = .ok u)
    (hB : booksGet books (.s book_id) = some b)
    (hO : pyEq b.owner (.s u) = true)
    (hbad : (∃ yv, dGet data "year" = some yv ∧ toInt yv = none) ∨
            (∃ sv, dGet data "stock" = some sv ∧ toInt sv = none)) :
    update_book check users books auth book_id (.obj data)
        = .ok (.err "year must be an integer" 400, books) ∨
    update_book check users books auth book_id (.obj data)
        = .ok (.err "stock must be an integer" 400, books) := by
  have hu : u ≠ "" := (require_auth_ok hA).1
  have howner : ensure_owner (some u) b = none := by
    unfold ensure_owner
    simp [beq_eq_false_iff_ne.mpr hu, hO]
  have hne : data.isEmpty = false := by
    cases data with
    | nil =>
      exfalso
      rcases hbad with ⟨yv, hy, _⟩ | ⟨sv, hs, _⟩
      · exact absurd hy (by simp [dGet])
      · exact absurd hs (by simp [dGet])
    | cons p rest => rfl
  have hjson : getJson (.obj data) = .obj data := by
    unfold getJson bodyFalsy
    simp [hne]
  have hyearGet : dGet (dPop (dPop data "owner") "id") "year" = dGet data "year" := by
    rw [dGet_dPop_ne _ (by decide), dGet_dPop_ne _ (by decide)]
  have hstockGet : dGet (dPop (dPop data "owner") "id") "stock" = dGet data "stock" := by
    rw [dGet_dPop_ne _ (by decide), dGet_dPop_ne _ (by decide)]
  rcases hbad with ⟨yv, hy, hyn⟩ | ⟨sv, hs, hsn⟩
  · left
    simp only [update_book, hA, get_book_or_404, hB, howner, hjson, hyearGet, hy, hyn]
  · cases hyv : dGet data "year" with
    | none =>
      right
      simp only [update_book, hA, get_book_or_404, hB, howner, hjson, hyearGet, hyv,
                 update_stock, hstockGet, hs, hsn]
    | some yv =>
      cases hyi : toInt yv with
      | none =>
        left
        simp only [update_book, hA, get_book_or_404, hB, howner, hjson, hyearGet, hyv, hyi]
      | some y =>
        right
        have hstockGet2 : dGet (dSet (dPop (dPop data "owner") "id") "year" (.i y)) "stock"
            = dGet data "stock" := by
          rw [dGet_dSet_ne _ _ (by decide), hstockGet]
        simp only [update_book, hA, get_book_or_404, hB, howner, hjson, hyearGet, hyv,
                   hyi, update_stock, hstockGet2, hs, hsn]

/-- C3 witness: the owner updates `BK001` with a valid `title` and a
non-coercible `year`; the whole update is rejected and nothing changes. -/
theorem c3_update_all_or_nothing_witness :
    update_book chkW usersW initialBooks authAdmin "BK001"
        (.obj [("title", .s "X"), ("year", .s "abc")])
        = .ok (.err "year must be an integer" 400, initialBooks) ∨
    update_book chkW usersW initialBooks authAdmin "BK001"
        (.obj [("title", .s "X"), ("year", .s "abc")])
        = .ok (.err "stock must be an integer" 400, initialBooks) :=
  c3_update_all_or_nothing chkW usersW initialBooks authAdmin "admin" "BK001" bk1W
    [("title", .s "X"), ("year", .s "abc")] (by decide) (by decide) (by decide)
    (Or.inl ⟨.s "abc", by decide, by decide⟩)

/-- The book produced by the C4 witness update. -/
def nbW : Book :=
  ⟨.s "BK001", .s "X", .s "Bill Burnett", .s "Knopf", .i 2016, .s "Self-help",
   .i 5, .s "admin"⟩

/-- C4: any successful update, whatever the payload — including payloads
carrying `id` and/or `owner` keys — returns a book whose `id` and `owner`
equal their values before the update: those two payload keys are popped
before the assignment loop runs. -/
theorem c4_update_preserves_id_owner (check : String → String → Bool)
    (users : Users) (books : Books) (auth : Option AuthHeader)
    (book_id : String) (body : JBody) (b : Book) (msg : String) (nb : Book)
    (st : Nat) (books' : Books)
    (hB : booksGet books (.s book_id) = some b)
    (hS : update_book check users books auth book_id body
          = .ok (.msgBook msg nb st, books')) :
    nb.id = b.id ∧ nb.owner = b.owner := by
  obtain ⟨book, d3, hbook, hno, hnb, -⟩ := update_book_success_inv hS
  have heq : book = b := by
    rw [hbook] at hB
    exact Option.some.inj hB
  subst heq
  rw [hnb]
  exact foldl_setField_keep d3 book hno

/-- C4 witness: admin updates `BK001` with a payload smuggling `id` and
`owner` values; the stored book keeps its original id and owner. -/
theorem c4_update_preserves_id_owner_witness :
    nbW.id = bk1W.id ∧ nbW.owner = bk1W.owner :=
  c4_update_preserves_id_owner chkW usersW initialBooks authAdmin "BK001"
    (.obj [("id", .s "EVIL"), ("owner", .s "mallory"), ("title", .s "X")])
    bk1W "Book updated" nbW 200
    (booksSetAt initialBooks (.s "BK001") nbW) (by decide) (by decide)

/-- C8: once a delete succeeds, a read of the same id answers NotFound and a
second delete with the same credentials also answers NotFound, leaving the
catalog untouched. -/
theorem c8_delete_then_gone (check : String → String → Bool) (users : Users)
    (books : Books) (auth : Option AuthHeader) (book_id : String)
    (books' : Books)
    (hU : UniqueKeys books)
    (hD : delete_book check users books auth book_id
          = (.message "Book deleted" 200, books')) :
    get_book books' book_id = .err "Book not found" 404 ∧
    delete_book check users books' auth book_id
      = (.err "Book not found" 404, books') := by
  unfold delete_book at hD
  split at hD
  next r heq =>
    obtain ⟨m, rfl⟩ := require_auth_error_detail heq
    exact absurd hD (by simp)
  next u heq =>
    split at hD
    next r heq2 =>
      obtain ⟨h3, -⟩ := get_book_or_404_error heq2
      rw [h3] at hD
      exact absurd hD (by simp)
    next book heq2 =>
      split at hD
      next r heq3 =>
        rcases ensure_owner_some heq3 with h3 | h3 <;> rw [h3] at hD <;>
          exact absurd hD (by simp)
      next heq3 =>
        simp only [Prod.mk.injEq] at hD
        obtain ⟨-, hbooks⟩ := hD
        subst hbooks
        have hgone : booksGet (booksRemove books (.s book_id)) (.s book_id) = none :=
          booksGet_remove_self _ hU
        constructor
        · simp only [get_book, get_book_or_404, hgone]
        · simp only [delete_book, heq, get_book_or_404, hgone]

/-- C8 witness: admin deletes `BK001`; reading it then answers 404 and a
second delete by admin answers 404 as well. -/
theorem c8_delete_then_gone_witness :
    get_book (booksRemove initialBooks (.s "BK001")) "BK001"
      = .err "Book not found" 404 ∧
    delete_book chkW usersW (booksRemove initialBooks (.s "BK001")) authAdmin "BK001"
      = (.err "Book not found" 404, booksRemove initialBooks (.s "BK001")) :=
  c8_delete_then_gone chkW usersW initialBooks authAdmin "BK001"
    (booksRemove initialBooks (.s "BK001")) (by unfold UniqueKeys; decide) (by decide)

/-- Any `create_book` outcome either keeps the catalog or appends one entry
whose key was free. -/
theorem create_book_books_inv {check : String → String → Bool} {users : Users}
    {books : Books} {auth : Option AuthHeader} {body : JBody} {r : Resp}
    {bs2 : Books}
    (h : create_book check users books auth body = .ok (r, bs2)) :
    bs2 = books ∨
    ∃ (bid : JVal) (nb : Book), booksGet books bid = none ∧
      bs2 = books ++ [(bid, nb)] := by
  unfold create_book at h
  repeat' split at h
  all_goals
    first
      | exact Except.noConfusion h
      | (simp only [Except.ok.injEq, Prod.mk.injEq] at h; exact Or.inl h.2.symm)
      | (simp only [Except.ok.injEq, Prod.mk.injEq] at h;
         refine Or.inr ⟨_, _, ?_, h.2.symm⟩;
         simp_all [Option.not_isSome_iff_eq_none])

/-- Any `update_book` outcome either keeps the catalog or rewrites the entry
stored at the updated id in place. -/
theorem update_book_books_inv {check : String → String → Bool} {users : Users}
    {books : Books} {auth : Option AuthHeader} {book_id : String}
    {body : JBody} {r : Resp} {bs2 : Books}
    (h : update_book check users books auth book_id body = .ok (r, bs2)) :
    bs2 = books ∨ ∃ nb, bs2 = booksSetAt books (.s book_id) nb := by
  unfold update_book at h
  repeat' split at h
  all_goals
    first
      | exact Except.noConfusion h
      | (simp only [Except.ok.injEq, Prod.mk.injEq] at h; exact Or.inl h.2.symm)
      | (unfold update_stock update_apply at h;
         repeat' split at h;
         all_goals
           first
             | exact Except.noConfusion h
             | (simp only [Except.ok.injEq, Prod.mk.injEq] at h; exact Or.inl h.2.symm)
             | (simp only [Except.ok.injEq, Prod.mk.injEq] at h; exact Or.inr ⟨_, h.2.symm⟩))

/-- Any `delete_book` outcome either keeps the catalog or removes the entry
at the deleted id. -/
theorem delete_book_books_inv (check : String → String → Bool) (users : Users)
    (books : Books) (auth : Option AuthHeader) (book_id : String) :
    (delete_book check users books auth book_id).2 = books ∨
    (delete_book check users books auth book_id).2
      = booksRemove books (.s book_id) := by
  unfold delete_book
  split
  next => exact Or.inl rfl
  next u heq =>
    split
    next => exact Or.inl rfl
    next book heq2 =>
      split
      next => exact Or.inl rfl
      next => exact Or.inr rfl

/-- C5: creating a book whose id equals (in the Python sense) the key of an
existing catalog entry fails with the duplicate-id Conflict error and leaves
the catalog unchanged; moreover create, update and delete each preserve the
key-uniqueness invariant from any state satisfying it, and the seeded
catalog satisfies it — so ids stay unique across any operation sequence. -/
theorem c5_unique_ids (check : String → String → Bool) (users : Users)
    (books : Books) (auth : Option AuthHeader) (u : String)
    (data : List (String × JVal)) (idv : JVal)
    (check2 : String → String → Bool) (users2 : Users) (books2 : Books)
    (auth2 : Option AuthHeader) (body2 : JBody)
    (check3 : String → String → Bool) (users3 : Users) (books3 : Books)
    (auth3 : Option AuthHeader) (bid3 : String) (body3 : JBody)
    (check4 : String → String → Bool) (users4 : Users) (books4 : Books)
    (auth4 : Option AuthHeader) (bid4 : String)
    (hA : require_auth check users auth = .ok u)
    (hId : dGet data "id" = some idv)
    (hF : falsy idv = false)
    (hEx : (booksGet books idv).isSome = true)
    (hU2 : UniqueKeys books2) (hU3 : UniqueKeys books3)
    (hU4 : UniqueKeys books4) :
    create_book check users books auth (.obj data)
      = .ok (.err "Book with this id already exists" 400, books) ∧
    UniqueKeys (booksAfterCreate check2 users2 books2 auth2 body2) ∧
    UniqueKeys (booksAfterUpdate check3 users3 books3 auth3 bid3 body3) ∧
    UniqueKeys (delete_book check4 users4 books4 auth4 bid4).2 ∧
    UniqueKeys initialBooks := by
  refine ⟨?_, ?_, ?_, ?_, by unfold UniqueKeys; decide⟩
  · have hne : data.isEmpty = false := by
      cases data with
      | nil => exact absurd hId (by simp [dGet])
      | cons p rest => rfl
    have hjson : getJson (JBody.obj data) = .obj data := by
      unfold getJson bodyFalsy
      simp [hne]
    simp only [create_book, hA, hjson, hId, hF, Bool.false_eq_true, if_false, hEx,
               if_true]
  · unfold booksAfterCreate
    split
    next r heq =>
      cases r with
      | mk resp bs2 =>
        rcases create_book_books_inv heq with h1 | ⟨bid, nb, hfresh, h1⟩
        · rw [h1]; exact hU2
        · rw [h1]; exact uniqueKeys_append_fresh nb hU2 hfresh
    next => exact hU2
  · unfold booksAfterUpdate
    split
    next r heq =>
      cases r with
      | mk resp bs2 =>
        rcases update_book_books_inv heq with h1 | ⟨nb, h1⟩
        · rw [h1]; exact hU3
        · rw [h1]; exact uniqueKeys_setAt _ nb hU3
    next => exact hU3
  · rcases delete_book_books_inv check4 users4 books4 auth4 bid4 with h1 | h1
    · rw [h1]; exact hU4
    · rw [h1]; exact uniqueKeys_remove _ hU4

/-- C5 witness: recreating `BK001` as admin is refused with the Conflict
error and all preservation instances hold on the seeded state. -/
theorem c5_unique_ids_witness :
    create_book chkW usersW initialBooks authAdmin
        (.obj [("id", .s "BK001"), ("title", .s "T")])
      = .ok (.err "Book with this id already exists" 400, initialBooks) ∧
    UniqueKeys (booksAfterCreate chkW usersW initialBooks authAdmin
        (.obj [("id", .s "BK004"), ("title", .s "T")])) ∧
    UniqueKeys (booksAfterUpdate chkW usersW initialBooks authAdmin "BK001"
        (.obj [("title", .s "T")])) ∧
    UniqueKeys (delete_book chkW usersW initialBooks authAdmin "BK001").2 ∧
    UniqueKeys initialBooks :=
  c5_unique_ids chkW usersW initialBooks authAdmin "admin"
    [("id", .s "BK001"), ("title", .s "T")] (.s "BK001")
    chkW usersW initialBooks authAdmin (.obj [("id", .s "BK004"), ("title", .s "T")])
    chkW usersW initialBooks authAdmin "BK001" (.obj [("title", .s "T")])
    chkW usersW initialBooks authAdmin "BK001"
    (by decide) (by decide) (by decide) (by decide)
    (by unfold UniqueKeys; decide) (by unfold UniqueKeys; decide)
    (by unfold UniqueKeys; decide)

/-- C6: for an authenticated identity and a valid payload with a fresh
string id, the create answers 201 with exactly the submitted fields (`year`
and `stock` integer-coerced, owner set to the identity regardless of any
payload `owner` value), and a subsequent read of that id returns the same
record. -/
theorem c6_create_read_roundtrip (check : String → String → Bool)
    (users : Users) (books : Books) (auth : Option AuthHeader)
    (u bid : String) (data : List (String × JVal))
    (tv av pv gv yv sv : JVal) (y s : Int)
    (hA : require_auth check users auth = .ok u)
    (hId : dGet data "id" = some (.s bid))
    (hbid : bid ≠ "")
    (hFresh : booksGet books (.s bid) = none)
    (hT : dGet data "title" = some tv) (hAu : dGet data "author" = some av)
    (hP : dGet data "publisher" = some pv) (hG : dGet data "genre" = some gv)
    (hY : dGet data "year" = some yv) (hS : dGet data "stock" = some sv)
    (hYi : toInt yv = some y) (hSi : toInt sv = some s) :
    create_book check users books auth (.obj data)
      = .ok (.msgBook "Book created"
          ⟨.s bid, tv, av, pv, .i y, gv, .i s, .s u⟩ 201,
          books ++ [(.s bid, ⟨.s bid, tv, av, pv, .i y, gv, .i s, .s u⟩)]) ∧
    get_book (books ++ [(.s bid, ⟨.s bid, tv, av, pv, .i y, gv, .i s, .s u⟩)]) bid
      = .bookJson ⟨.s bid, tv, av, pv, .i y, gv, .i s, .s u⟩ 200 := by
  have hne : data.isEmpty = false := by
    cases data with
    | nil => exact absurd hId (by simp [dGet])
    | cons p rest => rfl
  have hjson : getJson (JBody.obj data) = .obj data := by
    unfold getJson bodyFalsy
    simp [hne]
  have hfb : falsy (JVal.s bid) = false := by
    simp [falsy, hbid]
  have hmiss : requiredFields.filter (fun f => (dGet data f).isNone) = [] := by
    simp [requiredFields, List.filter, hT, hAu, hP, hG, hY, hS]
  constructor
  · simp only [create_book, hA, hjson, hId, hfb, Bool.false_eq_true, if_false,
               hFresh, Option.isSome_none, hmiss, List.isEmpty_nil, Bool.not_true,
               dIndex, hT, hAu, hP, hG, hY, hS, Option.getD_some, hYi, hSi]
  · have hnew : booksGet (books ++ [(.s bid, ⟨.s bid, tv, av, pv, .i y, gv, .i s, .s u⟩)])
        (.s bid) = some ⟨.s bid, tv, av, pv, .i y, gv, .i s, .s u⟩ :=
      booksGet_fresh_append _ hFresh
    simp only [get_book, get_book_or_404, hnew]

/-- C6 witness: alice creates `BK999` (with a smuggled `owner` value in the
payload); the stored and re-read record carries her as owner and the
submitted fields with `year`/`stock` coerced. -/
theorem c6_create_read_roundtrip_witness :
    create_book chkW usersW initialBooks authAlice
        (.obj [("id", .s "BK999"), ("title", .s "T"), ("author", .s "A"),
               ("publisher", .s "P"), ("year", .s "2024"), ("genre", .s "G"),
               ("stock", .i 3), ("owner", .s "haxor")])
      = .ok (.msgBook "Book created"
          ⟨.s "BK999", .s "T", .s "A", .s "P", .i 2024, .s "G", .i 3, .s "alice"⟩ 201,
          initialBooks ++ [(.s "BK999",
            ⟨.s "BK999", .s "T", .s "A", .s "P", .i 2024, .s "G", .i 3, .s "alice"⟩)]) ∧
    get_book (initialBooks ++ [(.s "BK999",
        ⟨.s "BK999", .s "T", .s "A", .s "P", .i 2024, .s "G", .i 3, .s "alice"⟩)]) "BK999"
      = .bookJson ⟨.s "BK999", .s "T", .s "A", .s "P", .i 2024, .s "G", .i 3, .s "alice"⟩ 200 :=
  c6_create_read_roundtrip chkW usersW initialBooks authAlice "alice" "BK999"
    [("id", .s "BK999"), ("title", .s "T"), ("author", .s "A"),
     ("publisher", .s "P"), ("year", .s "2024"), ("genre", .s "G"),
     ("stock", .i 3), ("owner", .s "haxor")]
    (.s "T") (.s "A") (.s "P") (.s "G") (.s "2024") (.i 3) 2024 3
    (by decide) (by decide) (by decide) (by decide) (by decide) (by decide)
    (by decide) (by decide) (by decide) (by decide) (by decide) (by decide)

theorem pyOr_s (x : String) : pyOr (some (.s x)) (.s "") = .s x := by
  unfold pyOr
  by_cases hx : x = ""
  · subst hx; simp [falsy]
  · simp [falsy, hx]

/-- Evaluation of `register` on a JSON object carrying string `username`
and `password` values, with every step of `app.py:224` laid out. -/
theorem register_str (users : Users) (hash : String → String) (u p : String) :
    register users hash (.obj [("username", .s u), ("password", .s p)]) =
      (if pyStrip u == "" || (p == "") then
        .ok (.err "username and password are required" 400, users)
       else if (pyStrip u).length < 3 then
        .ok (.err "username must be at least 3 characters" 400, users)
       else if (lookupUser users (pyStrip u)).isSome then
        .ok (.err "username already exists" 400, users)
       else
        match validate_password p with
        | some msg => .ok (.err msg 400, users)
        | none => .ok (.message "User registered successfully" 201,
                       users ++ [(pyStrip u, hash p)])) := by
  unfold register
  simp [getJson, bodyFalsy, dGet, List.find?, pyOr_s, falsy]

/-- C10: registration strips surrounding whitespace from the submitted
username before every check and before storing — the outcome on `u` equals
the outcome on the pre-stripped `u` — a whitespace-only username is
rejected exactly like a missing one, and on success the record stored is
keyed by the stripped username while the password is hashed as submitted,
unstripped. -/
theorem c10_register_strips_username (users : Users) (hash : String → String)
    (u p : String)
    (users2 : Users) (hash2 : String → String) (u2 p2 : String)
    (users3 users3' : Users) (hash3 : String → String) (u3 p3 : String)
    (hw : u2.toList.all isPyWs = true)
    (hs : register users3 hash3
            (.obj [("username", .s u3), ("password", .s p3)])
          = .ok (.message "User registered successfully" 201, users3')) :
    register users hash (.obj [("username", .s u), ("password", .s p)])
      = register users hash
          (.obj [("username", .s (pyStrip u)), ("password", .s p)]) ∧
    register users2 hash2 (.obj [("username", .s u2), ("password", .s p2)])
      = .ok (.err "username and password are required" 400, users2) ∧
    users3' = users3 ++ [(pyStrip u3, hash3 p3)] := by
  refine ⟨?_, ?_, ?_⟩
  · rw [register_str, register_str, pyStrip_idem]
  · rw [register_str]
    simp [pyStrip_ws hw]
  · rw [register_str] at hs
    split at hs
    next => simp at hs
    next =>
      split at hs
      next => simp at hs
      next =>
        split at hs
        next => simp at hs
        next =>
          split at hs
          next => simp at hs
          next =>
            simp only [Except.ok.injEq, Prod.mk.injEq, Resp.message.injEq] at hs
            exact hs.2.symm

/-- C10 witness: registering `" bob "` behaves like registering `"bob"`,
a whitespace-only username is rejected as missing, and the successful
registration of `" bob "` stores the stripped name with the hash of the
unstripped password. -/
theorem c10_register_strips_username_witness :
    register usersW (fun s2 => s2)
        (.obj [("username", .s " bob "), ("password", .s "pw")])
      = register usersW (fun s2 => s2)
          (.obj [("username", .s (pyStrip " bob ")), ("password", .s "pw")]) ∧
    register usersW (fun s2 => s2)
        (.obj [("username", .s "   "), ("password", .s "GOOD1234")])
      = .ok (.err "username and password are required" 400, usersW) ∧
    ([("bob", "GOOD1234")] : Users)
      = [] ++ [(pyStrip " bob ", (fun s2 : String => s2) "GOOD1234")] :=
  c10_register_strips_username usersW (fun s2 => s2) " bob " "pw"
    usersW (fun s2 => s2) "   " "GOOD1234"
    [] [("bob", "GOOD1234")] (fun s2 => s2) " bob " "GOOD1234"
    (by decide) (by decide)
